import Mathlib

/-!
Verification of the function-evaluation layer of the `formulas` spreadsheet
engine (`formulas/formulas/functions.py`) against its natural-language
specification.

Modelling conventions:
* Python floats are idealized as exact rationals extended with the three
  non-finite values `nan`, `inf` (+∞) and `ninf` (−∞); rounding and overflow
  of IEEE arithmetic are not modelled, but the nan/inf propagation rules the
  code inspects (`np.isnan` / `np.isinf`) are.
* Strings are modelled as `List Char`.
* Spreadsheet error values (`XlError` in `tokens/operand.py`, outside the
  sources under study) are a closed enumeration of tags; per the spec they
  are singletons per tag, never coercible to a number.
* Fallible Python code (raised exceptions) is modelled with `Except`.
-/

namespace Formulas

/-- The closed set of spreadsheet error codes (`Error.errors` in
`tokens/operand.py`): division-by-zero, invalid-value, invalid-number,
not-available, name-error, null-error, reference-error. -/
inductive XlErr where
  | div0
  | value
  | num
  | na
  | nameErr
  | nullErr
  | refErr
deriving DecidableEq

/-- Canonical display string of an error code. -/
def XlErr.code : XlErr → List Char
  | .div0 => "#DIV/0!".toList
  | .value => "#VALUE!".toList
  | .num => "#NUM!".toList
  | .na => "#N/A".toList
  | .nameErr => "#NAME?".toList
  | .nullErr => "#NULL!".toList
  | .refErr => "#REF!".toList

/-- Python/numpy floating point values, idealized: a finite float is an exact
rational; `nan`, `inf` and `ninf` are the non-finite values that the wrapper
code tests with `np.isnan` / `np.isinf`. -/
inductive PyFloat where
  | fin (q : ℚ)
  | nan
  | inf
  | ninf
deriving DecidableEq

instance : OfNat PyFloat n := ⟨.fin n⟩

/-- Python `==` on floats: finite values compare by value, the infinities by
sign, and `nan` is equal to nothing (not even itself). -/
def eqF : PyFloat → PyFloat → Bool
  | .fin a, .fin b => a == b
  | .inf, .inf => true
  | .ninf, .ninf => true
  | _, _ => false

/-- Python `< 0` on floats: `nan < 0` is false. -/
def lt0F : PyFloat → Bool
  | .fin a => a < 0
  | .ninf => true
  | .inf => false
  | .nan => false

/-- Floating point addition with IEEE nan/inf propagation
(`inf + ninf = nan`), finite arithmetic idealized as exact. -/
def addF : PyFloat → PyFloat → PyFloat
  | .fin a, .fin b => .fin (a + b)
  | .nan, _ => .nan
  | _, .nan => .nan
  | .inf, .inf => .inf
  | .inf, .ninf => .nan
  | .ninf, .inf => .nan
  | .ninf, .ninf => .ninf
  | .inf, .fin _ => .inf
  | .fin _, .inf => .inf
  | .ninf, .fin _ => .ninf
  | .fin _, .ninf => .ninf

/-- Floating point multiplication with IEEE nan/inf propagation
(`inf * 0 = nan`), finite arithmetic idealized as exact. -/
def mulF : PyFloat → PyFloat → PyFloat
  | .fin a, .fin b => .fin (a * b)
  | .nan, _ => .nan
  | _, .nan => .nan
  | .inf, .inf => .inf
  | .inf, .ninf => .ninf
  | .ninf, .inf => .ninf
  | .ninf, .ninf => .inf
  | .inf, .fin b => if b == 0 then .nan else if 0 < b then .inf else .ninf
  | .fin a, .inf => if a == 0 then .nan else if 0 < a then .inf else .ninf
  | .ninf, .fin b => if b == 0 then .nan else if 0 < b then .ninf else .inf
  | .fin a, .ninf => if a == 0 then .nan else if 0 < a then .ninf else .inf

/-- Division of a float by a positive integer count (as in `sum(l) / len(l)`);
the count is never zero where this is used. -/
def divByNat : PyFloat → Nat → PyFloat
  | .fin a, n => .fin (a / n)
  | .nan, _ => .nan
  | .inf, _ => .inf
  | .ninf, _ => .ninf

/-- The `np.isnan(r) or np.isinf(r)` test of `safe_eval`. -/
def isNanOrInf : PyFloat → Bool
  | .fin _ => false
  | _ => true

/-- Absolute value as computed by `np.abs`: `|nan| = nan`, `|±inf| = inf`. -/
def absF : PyFloat → PyFloat
  | .fin q => .fin |q|
  | .nan => .nan
  | .inf => .inf
  | .ninf => .inf

/-- Numeric value of a digit character. -/
def digitVal (c : Char) : Nat := c.toNat - 48

/-- Natural number denoted by a digit string. -/
def natOfDigits (cs : List Char) : Nat :=
  cs.foldl (fun n c => 10 * n + digitVal c) 0

/-- Unsigned part of Python `float(str)` parsing: `"12"`, `"12."`, `".5"` and
`"12.5"` are accepted; anything with a non-digit (or `"."` alone, or the empty
string) is rejected.  Exponent notation and the special spellings
`inf`/`nan` are not modelled; the claims only distinguish parse success from
failure and exercise plain decimal literals. -/
def parseUnsigned (cs : List Char) : Option ℚ :=
  match cs.splitOn '.' with
  | [intPart] =>
      if intPart ≠ [] ∧ intPart.all Char.isDigit then
        some (natOfDigits intPart)
      else none
  | [intPart, fracPart] =>
      if (intPart ≠ [] ∨ fracPart ≠ []) ∧ intPart.all Char.isDigit ∧
          fracPart.all Char.isDigit then
        some ((natOfDigits intPart : ℚ) +
          (natOfDigits fracPart : ℚ) / (10 ^ fracPart.length : ℚ))
      else none
  | _ => none

/-- Python `float(str)`: optional sign followed by an unsigned decimal. -/
def parseFloat (cs : List Char) : Option ℚ :=
  match cs with
  | '-' :: rest => (parseUnsigned rest).map (fun q => -q)
  | '+' :: rest => parseUnsigned rest
  | _ => parseUnsigned cs

/-- Cell values flowing through the function layer: numbers, text, booleans,
error values and the empty-cell marker (Python `None`). -/
inductive CellValue where
  | num (x : PyFloat)
  | text (s : List Char)
  | boolean (b : Bool)
  | err (e : XlErr)
  | empty
deriving DecidableEq

/-- Python `float(v)` on a cell value, `none` when the call raises
`ValueError`/`TypeError`: booleans coerce to 0/1, text is parsed, the empty
marker (`None`) raises `TypeError`.  An error value never coerces: `XlError`
(defined outside the sources under study) is a string subclass whose display
text is non-numeric, matching the spec invariant that an error value is never
implicitly converted to a number. -/
def toFloat : CellValue → Option PyFloat
  | .num x => some x
  | .boolean b => some (.fin (if b then 1 else 0))
  | .text s => (parseFloat s).map .fin
  | .err _ => none
  | .empty => none

/-- Mirrors `is_number` in `functions.py`: outside the `Error`-token guard
(which never fires for cell values, since `Error` is the parser token class
rather than the `XlError` value class) it reports whether `float(number)`
succeeds. -/
def is_number (v : CellValue) : Bool :=
  (toFloat v).isSome

mutual
/-- Arbitrarily nested containers of cell values, as walked by `flatten`:
a leaf (scalar; text never descended into) or an iterable of sub-containers.
An argument tuple, a numpy array and a nested list are all `.list`. -/
inductive Cell where
  | leaf (v : CellValue)
  | list (xs : CellList)

/-- Contents of an iterable container, in iteration order. -/
inductive CellList where
  | nil
  | cons (head : Cell) (tail : CellList)
end

/-- Container holding the given sub-containers in order. -/
def CellList.ofList : List Cell → CellList
  | [] => .nil
  | x :: xs => .cons x (CellList.ofList xs)

/-- Iterable of the given sub-containers, e.g. a Python argument tuple. -/
def cellsOf (xs : List Cell) : Cell := .list (.ofList xs)

/-- Rectangular array of cell values (a 2-D numpy object array), row-major. -/
abbrev Grid := List (List CellValue)

/-- View of a rectangular array as a nested container. -/
def gridToCell (g : Grid) : Cell :=
  cellsOf (g.map (fun row => cellsOf (row.map .leaf)))

mutual
/-- Mirrors `flatten(l, check)` in `functions.py`: recursively descend into
iterable non-string containers and yield the leaves in encounter order;
with `check = none` (Python `None`) every leaf is yielded, otherwise only
the leaves satisfying the predicate. -/
def flatten (check : Option (CellValue → Bool)) : Cell → List CellValue
  | .leaf v =>
    match check with
    | none => [v]
    | some c => if c v then [v] else []
  | .list xs => flattenIter check xs

/-- The `for el in l: yield from flatten(el, check)` loop of `flatten`. -/
def flattenIter (check : Option (CellValue → Bool)) :
    CellList → List CellValue
  | .nil => []
  | .cons x xs => flatten check x ++ flattenIter check xs
end

/-- Error tag of a cell value, if it is an error value
(the `isinstance(v, XlError)` test). -/
def errOf : CellValue → Option XlErr
  | .err e => some e
  | _ => none

/-- Mirrors `raise_errors(*args)`: flatten the argument tuple with no
predicate and raise `FoundError` carrying the first error value found.
The raised signal is modelled as `some` of that error tag. -/
def raise_errors (args : List Cell) : Option XlErr :=
  (flatten none (cellsOf args)).findSome? errOf

/-- Result of a scalar numeric operation wrapped by `wrap_ufunc`: a float or
an error value (e.g. `xpower` returns `Error.errors['#NUM!']`). -/
inductive ScalarR where
  | num (x : PyFloat)
  | err (e : XlErr)
deriving DecidableEq

/-- Mirrors `safe_eval` inside `wrap_ufunc`: coerce every input leaf with
`float` (a failure raises `ValueError`/`TypeError`, caught and turned into
`#VALUE!`), apply the scalar operation, and replace a non-error result that
is nan or infinite with `#NUM!`. -/
def safe_eval (func : List PyFloat → ScalarR) (vals : List CellValue) :
    CellValue :=
  match vals.mapM toFloat with
  | none => .err .value
  | some fs =>
    match func fs with
    | .err e => .err e
    | .num x => if isNanOrInf x then .err .num else .num x

/-- Modelled from the spec: `replace_empty` (defined in the package
`__init__`, outside the sources under study) substitutes the canonical
empty-substitute — numeric zero for the elementwise numeric wrapper — for an
empty cell, and leaves every other value unchanged. -/
def replace_empty : CellValue → CellValue
  | .empty => .num (.fin 0)
  | v => v

/-- Unary scalar operation lifted to the argument list `safe_eval` passes:
calling a unary Python function with any other arity raises `TypeError`,
which the surrounding `try` of `safe_eval` converts to `#VALUE!`. -/
def lift1 (f : PyFloat → PyFloat) : List PyFloat → ScalarR
  | [x] => .num (f x)
  | _ => .err .value

/-- Binary scalar operation (already returning float-or-error) lifted to the
argument list `safe_eval` passes; wrong arity raises `TypeError` as above. -/
def lift2R (f : PyFloat → PyFloat → ScalarR) : List PyFloat → ScalarR
  | [x, y] => f x y
  | _ => .err .value

/-- Scalar application of `FUNCTIONS['ABS'] = wrap_ufunc(np.abs)`: the
wrapper replaces empties, then `np.vectorize(safe_eval)` applies `safe_eval`
at each position — a scalar argument being the degenerate single position. -/
def ABSleaf (v : CellValue) : CellValue :=
  safe_eval (lift1 absF) [replace_empty v]

/-- Mirrors `xarctan2(x, y)`: the Python `and`/`or` idiom evaluates to
`#DIV/0!` when `x == y == 0` (the error string is truthy) and to
`np.arctan2(y, x)` otherwise; the underlying `np.arctan2` is a parameter of
the model. -/
def xarctan2 (arctan2 : PyFloat → PyFloat → PyFloat) (x y : PyFloat) :
    ScalarR :=
  if eqF x y && eqF y (.fin 0) then .err .div0 else .num (arctan2 y x)

/-- Scalar application of `FUNCTIONS['ATAN2'] = wrap_ufunc(xarctan2)`. -/
def ATAN2leaf (arctan2 : PyFloat → PyFloat → PyFloat) (v w : CellValue) :
    CellValue :=
  safe_eval (lift2R (xarctan2 arctan2)) [replace_empty v, replace_empty w]

/-- Mirrors `xpower(number, power)`: a zero base with zero exponent gives
`#NUM!`, with negative exponent `#DIV/0!`; every other case delegates to the
underlying `np.power` primitive, a parameter of the model. -/
def xpower (power : PyFloat → PyFloat → PyFloat) (number p : PyFloat) :
    ScalarR :=
  if eqF number (.fin 0) then
    if eqF p (.fin 0) then .err .num
    else if lt0F p then .err .div0
    else .num (power number p)
  else .num (power number p)

/-- Model of `np.power` on the subdomain the claims evaluate: bases and
integer-valued exponents are computed exactly over the rationals (a negative
exponent on a zero base gives `inf`, as numpy does).  Non-integer exponents
and non-finite inputs are outside the exercised subdomain and are given the
placeholder value `nan`; no theorem evaluates them. -/
def npPower : PyFloat → PyFloat → PyFloat
  | .fin b, .fin e =>
    if e.den = 1 then
      if 0 ≤ e.num then .fin (b ^ e.num.toNat)
      else if b = 0 then .inf
      else .fin ((b ^ (-e.num).toNat)⁻¹)
    else .nan
  | _, _ => .nan

/-- Scalar application of `FUNCTIONS['POWER'] = wrap_ufunc(xpower)`. -/
def POWERleaf (v w : CellValue) : CellValue :=
  safe_eval (lift2R (xpower npPower)) [replace_empty v, replace_empty w]

/-- Python exceptions escaping the function bodies, plus the internal
fail-fast `FoundError` signal carrying an error value. -/
inductive PyFault where
  | typeError
  | zeroDivisionError
  | shapeMismatch
  | foundError (e : XlErr)
deriving DecidableEq

/-- One step of Python `sum` over the leaves that passed `is_number`: a
number or boolean adds onto the accumulator, while adding a string (also an
`XlError`, a string subclass) or `None` to a float raises `TypeError`. -/
def pyAdd (acc : PyFloat) : CellValue → Except PyFault PyFloat
  | .num x => .ok (addF acc x)
  | .boolean b => .ok (addF acc (.fin (if b then 1 else 0)))
  | _ => .error .typeError

/-- Python `sum(l)` with its default integer start value `0`. -/
def pySum (l : List CellValue) : Except PyFault PyFloat :=
  l.foldlM pyAdd (.fin 0)

/-- Mirrors `xsum(*args)`: raise on the first embedded error value, then
`sum` the leaves that pass the default `is_number` filter of `flatten`. -/
def xsum (args : List Cell) : Except PyFault PyFloat :=
  match raise_errors args with
  | some e => .error (.foundError e)
  | none => pySum (flatten (some is_number) (cellsOf args))

/-- Mirrors `average(*args)`: no `raise_errors` call; `sum` of the list
`l = list(flatten(args))` of `is_number`-filtered leaves divided by its
length (an empty `l` raises `ZeroDivisionError`). -/
def average (args : List Cell) : Except PyFault PyFloat :=
  match pySum (flatten (some is_number) (cellsOf args)) with
  | .error f => .error f
  | .ok s =>
    if (flatten (some is_number) (cellsOf args)).length = 0 then
      .error .zeroDivisionError
    else .ok (divByNat s (flatten (some is_number) (cellsOf args)).length)

/-- Modelled from the spec: an argument-level `replace_empty` — the generic
wrapper `wrap_func` (defined in the package `__init__`, outside the sources
under study) replaces each empty argument with the canonical empty
substitute before delegating. -/
def replaceEmptyArg : Cell → Cell
  | .leaf .empty => .leaf (replace_empty .empty)
  | c => c

/-- Modelled from the spec: `wrap_func` (outside the sources under study)
substitutes empty arguments, delegates, and catches the internal
fail-fast `FoundError` signal at the wrapper boundary, converting it back
into an error-value result; no other exception is converted. -/
def wrapAggregate (f : List Cell → Except PyFault PyFloat)
    (args : List Cell) : Except PyFault CellValue :=
  match f (args.map replaceEmptyArg) with
  | .ok x => .ok (.num x)
  | .error (.foundError e) => .ok (.err e)
  | .error fault => .error fault

/-- `FUNCTIONS['SUM'] = wrap_func(xsum)`. -/
def SUM (args : List Cell) : Except PyFault CellValue :=
  wrapAggregate xsum args

/-- `FUNCTIONS['AVERAGE'] = wrap_func(average)`. -/
def AVERAGE (args : List Cell) : Except PyFault CellValue :=
  wrapAggregate average args

/-- Total element count of an array (`arg.size`). -/
def sizeG (g : Grid) : Nat := (g.map List.length).sum

/-- Row-major flattening of an array (`arg.ravel()`). -/
def ravelG (g : Grid) : List CellValue := g.flatten

/-- One position of the masked float array built by `xsumproduct`
(`x = np.zeros_like(a, float); b = np.vectorize(is_number)(a); x[b] = a[b]`):
an `is_number` leaf is cast to its float value, every other position keeps
the zero fill. -/
def maskLeaf (v : CellValue) : PyFloat :=
  if is_number v then (toFloat v).getD (.fin 0) else .fin 0

/-- Fold of `np.sum` over a float list. -/
def listSumF (l : List PyFloat) : PyFloat := l.foldl addF (.fin 0)

/-- Fold of the position-wise product taken by `np.prod(inputs, axis=0)`. -/
def listProdF (l : List PyFloat) : PyFloat := l.foldl mulF (.fin 1)

/-- Mirrors `xsumproduct(*args)`: raise on embedded errors, assert all
argument arrays have one common total size (the failed `assert` — the
spec's `ShapeMismatch`), mask every non-`is_number` leaf to zero, multiply
position-wise across the arguments and sum. -/
def xsumproduct (args : List Grid) : Except PyFault PyFloat :=
  match raise_errors (args.map gridToCell) with
  | some e => .error (.foundError e)
  | none =>
    if ((args.map sizeG).dedup.length = 1) then
      let n := sizeG (args.headD [])
      let inputs := args.map (fun a => (ravelG a).map maskLeaf)
      .ok (listSumF ((List.range n).map
        (fun i => listProdF (inputs.map (fun x => x.getD i (.fin 0))))))
    else .error .shapeMismatch

/-- `FUNCTIONS['SUMPRODUCT'] = wrap_func(xsumproduct)`; the arguments are
arrays, so the wrapper's empty-argument substitution does not apply. -/
def SUMPRODUCT (args : List Grid) : Except PyFault CellValue :=
  match xsumproduct args with
  | .ok x => .ok (.num x)
  | .error (.foundError e) => .ok (.err e)
  | .error fault => .error fault

/-- Per-element predicate of `iserr`: `isinstance(v, XlError) and v is not
Error.errors['#N/A']` — error values are singletons per tag, so the identity
test is a tag comparison. -/
def iserrPred (v : CellValue) : Bool :=
  match v with
  | .err e => e != .na
  | _ => false

/-- Per-element predicate of `iserror`: `isinstance(v, XlError)`. -/
def iserrorPred (v : CellValue) : Bool :=
  match v with
  | .err _ => true
  | _ => false

/-- Mirrors `iserr` on an array argument: the elementwise boolean array. -/
def iserrG (g : Grid) : List (List Bool) :=
  g.map (fun row => row.map iserrPred)

/-- Mirrors `iserror` on an array argument. -/
def iserrorG (g : Grid) : List (List Bool) :=
  g.map (fun row => row.map iserrorPred)

/-- Mirrors `iserr` on a scalar: the source wraps the value as the 1×1 array
`np.asarray([[val]], object)` and returns position `[0][0]`. -/
def iserrScalar (v : CellValue) : Bool :=
  ((iserrG [[v]]).getD 0 []).getD 0 false

/-- Mirrors `iserror` on a scalar, through the same 1×1 wrapping. -/
def iserrorScalar (v : CellValue) : Bool :=
  ((iserrorG [[v]]).getD 0 []).getD 0 false

/-- Python `str()` on a cell value.  The repr of a finite float is idealized
as the rational's print form; no theorem inspects the characters a numeric
cell produces. -/
def pyStr : CellValue → List Char
  | .text s => s
  | .boolean b => if b then "True".toList else "False".toList
  | .err e => e.code
  | .empty => "None".toList
  | .num (.fin q) => (toString q).toList
  | .num .nan => "nan".toList
  | .num .inf => "inf".toList
  | .num .ninf => "-inf".toList

/-- Python slicing `s[k:]` for an arbitrary integer `k`: a negative start
counts from the end, clamped at the front of the string. -/
def pySliceFrom (s : List Char) (k : Int) : List Char :=
  if 0 ≤ k then s.drop k.toNat
  else s.drop (max 0 ((s.length : Int) + k)).toNat

/-- Mirrors `right(from_str, num_chars)`:
`str(from_str)[(0 - int(num_chars)):]` (the final `str()` of a string is the
identity). -/
def right (from_str : CellValue) (num_chars : Int) : List Char :=
  pySliceFrom (pyStr from_str) (0 - num_chars)

/-- Discriminator for text values. -/
def isTextV : CellValue → Bool
  | .text _ => true
  | _ => false

/-- Discriminator for the values Python `sum` can add onto a float. -/
def isNumOrBool : CellValue → Bool
  | .num _ => true
  | .boolean _ => true
  | _ => false

/-- Discriminator for an empty-cell argument. -/
def isEmptyLeaf : Cell → Bool
  | .leaf .empty => true
  | _ => false

@[simp] theorem flatten_none_leaf (v : CellValue) :
    flatten none (.leaf v) = [v] := rfl

@[simp] theorem flatten_some_leaf (c : CellValue → Bool) (v : CellValue) :
    flatten (some c) (.leaf v) = if c v then [v] else [] := rfl

@[simp] theorem flatten_cellsOf_nil (check : Option (CellValue → Bool)) :
    flatten check (cellsOf []) = [] := rfl

@[simp] theorem flatten_cellsOf_cons (check : Option (CellValue → Bool))
    (x : Cell) (xs : List Cell) :
    flatten check (cellsOf (x :: xs)) =
      flatten check x ++ flatten check (cellsOf xs) := rfl

mutual
theorem flatten_some_eq_filter (c : CellValue → Bool) :
    (l : Cell) → flatten (some c) l = (flatten none l).filter c
  | .leaf v => by cases h : c v <;> simp [flatten, h]
  | .list xs => flattenIter_some_eq_filter c xs

theorem flattenIter_some_eq_filter (c : CellValue → Bool) :
    (xs : CellList) → flattenIter (some c) xs = (flattenIter none xs).filter c
  | .nil => rfl
  | .cons x xs => by
    simp only [flattenIter, List.filter_append]
    rw [flatten_some_eq_filter c x, flattenIter_some_eq_filter c xs]
end

theorem flatten_none_row (row : List CellValue) :
    flatten none (cellsOf (row.map .leaf)) = row := by
  induction row with
  | nil => rfl
  | cons v vs ih => simp [ih]

theorem flatten_none_grid (g : Grid) :
    flatten none (gridToCell g) = g.flatten := by
  induction g with
  | nil => rfl
  | cons row rs ih =>
    simpa [gridToCell, flatten_none_row] using ih

theorem flatten_none_grids (args : List Grid) :
    flatten none (cellsOf (args.map gridToCell)) = (args.map ravelG).flatten := by
  induction args with
  | nil => rfl
  | cons g gs ih => simp [flatten_none_grid, ih, ravelG]

theorem replaceEmptyArg_id (a : Cell) (h : isEmptyLeaf a = false) :
    replaceEmptyArg a = a := by
  cases a with
  | leaf v => cases v <;> simp_all [isEmptyLeaf, replaceEmptyArg]
  | list xs => rfl

theorem map_replaceEmptyArg_id (args : List Cell)
    (h : ∀ a ∈ args, isEmptyLeaf a = false) :
    args.map replaceEmptyArg = args := by
  induction args with
  | nil => rfl
  | cons a as ih =>
    simp only [List.map_cons, replaceEmptyArg_id a (h a (.head as)),
      ih (fun x hx => h x (.tail a hx))]

theorem foldlM_pyAdd (L : List CellValue) (acc : PyFloat)
    (h : ∀ v ∈ L, isNumOrBool v = true) :
    L.foldlM pyAdd acc =
      .ok (L.foldl (fun a v => addF a ((toFloat v).getD (.fin 0))) acc) := by
  induction L generalizing acc with
  | nil => rfl
  | cons v vs ih =>
    cases v with
    | num x =>
      simpa [List.foldlM_cons, pyAdd, toFloat] using
        ih (addF acc x) (fun w hw => h w (List.mem_cons_of_mem _ hw))
    | boolean b =>
      simpa [List.foldlM_cons, pyAdd, toFloat] using
        ih (addF acc (.fin (if b then 1 else 0)))
          (fun w hw => h w (List.mem_cons_of_mem _ hw))
    | text s => simpa [isNumOrBool] using h _ (List.mem_cons_self _ _)
    | err e => simpa [isNumOrBool] using h _ (List.mem_cons_self _ _)
    | empty => simpa [isNumOrBool] using h _ (List.mem_cons_self _ _)

theorem pySum_ok (L : List CellValue) (h : ∀ v ∈ L, isNumOrBool v = true) :
    pySum L = .ok (listSumF (L.map (fun v => (toFloat v).getD (.fin 0)))) := by
  rw [pySum, foldlM_pyAdd L (.fin 0) h, listSumF, List.foldl_map]

theorem mem_filter_isNumOrBool (l : Cell)
    (hT : ∀ s, CellValue.text s ∈ flatten none l → is_number (.text s) = false) :
    ∀ v ∈ (flatten none l).filter is_number, isNumOrBool v = true := by
  intro v hv
  rw [List.mem_filter] at hv
  obtain ⟨hm, hn⟩ := hv
  cases v with
  | num x => rfl
  | boolean b => rfl
  | text s => exact absurd hn (by simp [hT s hm])
  | err e => simp [is_number, toFloat] at hn
  | empty => simp [is_number, toFloat] at hn

end Formulas

deriving instance DecidableEq for Except

namespace Formulas

theorem xsum_no_errors (args : List Cell) (h : raise_errors args = none) :
    xsum args = pySum (flatten (some is_number) (cellsOf args)) := by
  unfold xsum
  rw [h]

theorem xsum_found (args : List Cell) (e : XlErr)
    (h : raise_errors args = some e) :
    xsum args = .error (.foundError e) := by
  unfold xsum
  rw [h]

theorem wrapAggregate_ok (f : List Cell → Except PyFault PyFloat)
    (args : List Cell) (x : PyFloat)
    (h : f (args.map replaceEmptyArg) = .ok x) :
    wrapAggregate f args = .ok (.num x) := by
  unfold wrapAggregate
  rw [h]

theorem wrapAggregate_found (f : List Cell → Except PyFault PyFloat)
    (args : List Cell) (e : XlErr)
    (h : f (args.map replaceEmptyArg) = .error (.foundError e)) :
    wrapAggregate f args = .ok (.err e) := by
  unfold wrapAggregate
  rw [h]

theorem flatten_replaceEmptyArg_errors (a : Cell) :
    (flatten none (replaceEmptyArg a)).findSome? errOf =
      (flatten none a).findSome? errOf := by
  cases a with
  | leaf v => cases v <;> rfl
  | list xs => rfl

theorem raise_errors_map_replace (args : List Cell) :
    raise_errors (args.map replaceEmptyArg) = raise_errors args := by
  unfold raise_errors
  induction args with
  | nil => rfl
  | cons a as ih =>
    simp only [List.map_cons, flatten_cellsOf_cons, List.findSome?_append]
    rw [flatten_replaceEmptyArg_errors a, ih]

theorem average_ok (args : List Cell)
    (hnb : ∀ v ∈ flatten (some is_number) (cellsOf args), isNumOrBool v = true)
    (hne : flatten (some is_number) (cellsOf args) ≠ []) :
    average args = .ok (divByNat
      (listSumF ((flatten (some is_number) (cellsOf args)).map
        (fun v => (toFloat v).getD (.fin 0))))
      (flatten (some is_number) (cellsOf args)).length) := by
  unfold average
  rw [pySum_ok _ hnb]
  dsimp only
  rw [if_neg (fun h => hne (List.length_eq_zero.mp h))]

theorem getD_map_maskLeaf (l : List CellValue) (i : ℕ) :
    (l.map maskLeaf).getD i (.fin 0) = maskLeaf (l.getD i .empty) := by
  induction l generalizing i with
  | nil => cases i <;> simp [maskLeaf, is_number, toFloat]
  | cons v vs ih =>
    cases i with
    | zero => simp
    | succ j => simpa using ih j

theorem dedup_all_eq {l : List ℕ} {c : ℕ} (hne : l ≠ [])
    (h : ∀ x ∈ l, x = c) : l.dedup = [c] := by
  induction l with
  | nil => exact absurd rfl hne
  | cons a as ih =>
    have ha : a = c := h a (List.mem_cons_self a as)
    cases as with
    | nil => simp [ha]
    | cons b bs =>
      have hb : b = c := h b (by simp)
      have hmem : a ∈ b :: bs := by
        rw [ha, hb]
        exact List.mem_cons_self c bs
      rw [List.dedup_cons_of_mem hmem]
      exact ih (by simp) (fun x hx => h x (List.mem_cons_of_mem _ hx))

theorem eq_of_dedup_len1 {l : List ℕ} {x y : ℕ} (hx : x ∈ l) (hy : y ∈ l)
    (h : l.dedup.length = 1) : x = y := by
  obtain ⟨c, hc⟩ := List.length_eq_one.mp h
  have hxc : x = c := by
    have hm := List.mem_dedup.mpr hx
    rw [hc] at hm
    simpa using hm
  have hyc : y = c := by
    have hm := List.mem_dedup.mpr hy
    rw [hc] at hm
    simpa using hm
  rw [hxc, hyc]

theorem raise_errors_grids_none (args : List Grid)
    (h : ∀ g ∈ args, ∀ v ∈ ravelG g, errOf v = none) :
    raise_errors (args.map gridToCell) = none := by
  unfold raise_errors
  rw [flatten_none_grids]
  refine List.findSome?_eq_none_iff.mpr ?_
  intro v hv
  rw [List.mem_flatten] at hv
  obtain ⟨l, hl, hvl⟩ := hv
  rw [List.mem_map] at hl
  obtain ⟨g, hg, rfl⟩ := hl
  exact h g hg v hvl

theorem xsumproduct_mismatch (args : List Grid)
    (hr : raise_errors (args.map gridToCell) = none)
    (hd : ¬ ((args.map sizeG).dedup.length = 1)) :
    xsumproduct args = .error .shapeMismatch := by
  unfold xsumproduct
  rw [hr]
  dsimp only
  rw [if_neg hd]

theorem xsumproduct_ok (args : List Grid)
    (hr : raise_errors (args.map gridToCell) = none)
    (hd : (args.map sizeG).dedup.length = 1) :
    xsumproduct args = .ok (listSumF
      ((List.range (sizeG (args.headD []))).map (fun i =>
        listProdF ((args.map (fun a => (ravelG a).map maskLeaf)).map
          (fun x => x.getD i (.fin 0)))))) := by
  unfold xsumproduct
  rw [hr]
  dsimp only
  rw [if_pos hd]

theorem SUMPRODUCT_num (args : List Grid) (x : PyFloat)
    (h : xsumproduct args = .ok x) : SUMPRODUCT args = .ok (.num x) := by
  unfold SUMPRODUCT
  rw [h]

theorem SUMPRODUCT_shape (args : List Grid)
    (h : xsumproduct args = .error .shapeMismatch) :
    SUMPRODUCT args = .error .shapeMismatch := by
  unfold SUMPRODUCT
  rw [h]

theorem POWERleaf_num (b p : ℚ) :
    POWERleaf (.num (.fin b)) (.num (.fin p)) =
      (match xpower npPower (.fin b) (.fin p) with
       | .err e => .err e
       | .num x => if isNanOrInf x then .err .num else .num x) := rfl

theorem ATAN2leaf_num (at2 : PyFloat → PyFloat → PyFloat) (x y : ℚ) :
    ATAN2leaf at2 (.num (.fin x)) (.num (.fin y)) =
      (match xarctan2 at2 (.fin x) (.fin y) with
       | .err e => .err e
       | .num r => if isNanOrInf r then .err .num else .num r) := rfl

/-- C1 counterexample: the claim says `ABS` of an error value returns that
same error value unchanged, but `ABS(#DIV/0!)` evaluates to `#VALUE!`:
`safe_eval` has no input-error passthrough, so the failed `float` coercion of
the error value is caught as an ordinary coercion failure. -/
theorem C1_abs_error_counterexample :
    ABSleaf (.err .div0) = .err .value ∧
      CellValue.err XlErr.value ≠ CellValue.err XlErr.div0 :=
  ⟨rfl, by decide⟩

/-- C1 amended: for every finite numeric `x`, `ABS(x) = |x|`; `ABS` of an
error value returns `#VALUE!` (hence the input error is returned unchanged
only when it is itself `#VALUE!`). -/
theorem C1_abs_amended :
    (∀ q : ℚ, ABSleaf (.num (.fin q)) = .num (.fin |q|)) ∧
      (∀ e : XlErr, ABSleaf (.err e) = .err .value) :=
  ⟨fun _ => rfl, fun _ => rfl⟩

/-- C3: in the elementwise wrapper's `safe_eval`, a failed `float` coercion
of an input leaf yields `#VALUE!`; a non-error scalar result that is NaN or
infinite yields `#NUM!`; an error value returned by the scalar op passes
through; consequently any op that, like `np.log` on non-positive input,
returns NaN or −∞ there yields `#NUM!` with no special case. -/
theorem C3_safe_eval_rules :
    (∀ (func : List PyFloat → ScalarR) (vals : List CellValue),
      vals.mapM toFloat = none → safe_eval func vals = .err .value) ∧
    (∀ (func : List PyFloat → ScalarR) (vals : List CellValue)
      (fs : List PyFloat) (x : PyFloat),
      vals.mapM toFloat = some fs → func fs = .num x → isNanOrInf x = true →
      safe_eval func vals = .err .num) ∧
    (∀ (func : List PyFloat → ScalarR) (vals : List CellValue)
      (fs : List PyFloat) (e : XlErr),
      vals.mapM toFloat = some fs → func fs = .err e →
      safe_eval func vals = .err e) ∧
    (∀ (f : PyFloat → PyFloat) (q : ℚ), q ≤ 0 →
      isNanOrInf (f (.fin q)) = true →
      safe_eval (lift1 f) [.num (.fin q)] = .err .num) := by
  refine ⟨?_, ?_, ?_, ?_⟩
  · intro func vals h
    unfold safe_eval
    rw [h]
  · intro func vals fs x h hf hx
    unfold safe_eval
    rw [h]
    simp [hf, hx]
  · intro func vals fs e h hf
    unfold safe_eval
    rw [h]
    simp [hf]
  · intro f q _ hf
    have hm : ([CellValue.num (.fin q)]).mapM toFloat = some [.fin q] := rfl
    unfold safe_eval
    rw [hm]
    simp [lift1, hf]

/-- C3 witness: the four rules at concrete inputs — uncoercible text gives
`#VALUE!`, a NaN result gives `#NUM!`, an error result passes through, and a
NaN-returning op applied to a non-positive number gives `#NUM!`. -/
theorem C3_safe_eval_rules_witness :
    safe_eval (fun _ => ScalarR.num .nan) [.text "x".toList] = .err .value ∧
    safe_eval (fun _ => ScalarR.num .nan) [.num (.fin 0)] = .err .num ∧
    safe_eval (fun _ => ScalarR.err .na) [.num (.fin 0)] = .err .na ∧
    safe_eval (lift1 (fun _ => .nan)) [.num (.fin (-1))] = .err .num :=
  ⟨C3_safe_eval_rules.1 _ _ (by decide),
   C3_safe_eval_rules.2.1 _ _ [.fin 0] .nan rfl rfl rfl,
   C3_safe_eval_rules.2.2.1 _ _ [.fin 0] .na rfl rfl,
   C3_safe_eval_rules.2.2.2 _ (-1) (by norm_num) rfl⟩

/-- C4: `is_number` is true for every value whose `float` coercion succeeds,
false for every error value, and false for non-numeric text. -/
theorem C4_is_number_spec :
    (∀ (v : CellValue) (f : PyFloat), toFloat v = some f →
      is_number v = true) ∧
    (∀ e : XlErr, is_number (.err e) = false) ∧
    (∀ s : List Char, parseFloat s = none → is_number (.text s) = false) := by
  refine ⟨?_, fun _ => rfl, ?_⟩
  · intro v f h
    simp [is_number, h]
  · intro s h
    simp [is_number, toFloat, h]

/-- C4 witness: a number coerces and is accepted; the text `"abc"` does not
coerce and is rejected alongside error values. -/
theorem C4_is_number_spec_witness :
    toFloat (.num (.fin 7)) = some (.fin 7) ∧
    is_number (.num (.fin 7)) = true ∧
    parseFloat "abc".toList = none ∧
    is_number (.text "abc".toList) = false :=
  ⟨rfl, C4_is_number_spec.1 _ _ rfl, by decide,
    C4_is_number_spec.2.2 _ (by decide)⟩

/-- C6: `POWER(0,0) = #NUM!`, `POWER(0,p) = #DIV/0!` for negative `p`,
`POWER(2,10) = 1024`; and in `xpower` the two zero-base checks fire before
the underlying power primitive is consulted (they hold for an arbitrary
primitive), every other case delegating to the primitive. -/
theorem C6_power_spec :
    (POWERleaf (.num (.fin 0)) (.num (.fin 0)) = .err .num) ∧
    (∀ q : ℚ, q < 0 → POWERleaf (.num (.fin 0)) (.num (.fin q)) = .err .div0) ∧
    (POWERleaf (.num (.fin 2)) (.num (.fin 10)) = .num (.fin 1024)) ∧
    (∀ prim : PyFloat → PyFloat → PyFloat,
      xpower prim (.fin 0) (.fin 0) = .err .num) ∧
    (∀ (prim : PyFloat → PyFloat → PyFloat) (p : PyFloat),
      lt0F p = true → xpower prim (.fin 0) p = .err .div0) ∧
    (∀ (prim : PyFloat → PyFloat → PyFloat) (b p : PyFloat),
      eqF b (.fin 0) = false → xpower prim b p = .num (prim b p)) ∧
    (∀ (prim : PyFloat → PyFloat → PyFloat) (b p : PyFloat),
      eqF p (.fin 0) = false → lt0F p = false →
      xpower prim b p = .num (prim b p)) := by
  refine ⟨rfl, ?_, ?_, fun _ => rfl, ?_, ?_, ?_⟩
  · intro q hq
    have h0 : (q == (0:ℚ)) = false := beq_eq_false_iff_ne.mpr hq.ne
    have h1 : decide (q < 0) = true := decide_eq_true hq
    have hx : xpower npPower (.fin 0) (.fin q) = .err .div0 := by
      simp [xpower, eqF, lt0F, h0, h1]
    rw [POWERleaf_num, hx]
  · have h1024 : npPower (.fin 2) (.fin 10) = .fin 1024 := by
      show PyFloat.fin ((2:ℚ) ^ (10:ℕ)) = .fin 1024
      norm_num
    have hx : xpower npPower (.fin 2) (.fin 10) = .num (.fin 1024) := by
      have h2 : ((2:ℚ) == 0) = false := by norm_num
      simp [xpower, eqF, h2, h1024]
    rw [POWERleaf_num, hx]
    rfl
  · intro prim p hp
    cases p with
    | fin a =>
      have ha : a < 0 := by simpa [lt0F] using hp
      have h0 : (a == (0:ℚ)) = false := beq_eq_false_iff_ne.mpr ha.ne
      simp [xpower, eqF, lt0F, h0, ha]
    | nan => exact absurd hp (by simp [lt0F])
    | inf => exact absurd hp (by simp [lt0F])
    | ninf => simp [xpower, eqF, lt0F]
  · intro prim b p hb
    simp [xpower, hb]
  · intro prim b p hp hlt
    cases hb : eqF b (.fin 0) with
    | false => simp [xpower, hb]
    | true => simp [xpower, hb, hp, hlt]

/-- C6 witness: the negative-exponent and delegation conjuncts at concrete
inputs, with an arbitrary placeholder primitive where the result must not
depend on it. -/
theorem C6_power_spec_witness :
    ((-1:ℚ) < 0 ∧
      POWERleaf (.num (.fin 0)) (.num (.fin (-1))) = .err .div0) ∧
    (lt0F (.fin (-1)) = true ∧
      xpower (fun _ _ => .nan) (.fin 0) (.fin (-1)) = .err .div0) ∧
    (eqF (.fin 3) (.fin 0) = false ∧
      xpower (fun _ _ => .inf) (.fin 3) (.fin 2) = .num .inf) ∧
    (eqF (.fin 2) (.fin 0) = false ∧ lt0F (.fin 2) = false ∧
      xpower (fun _ _ => .inf) (.fin 0) (.fin 2) = .num .inf) :=
  ⟨⟨by norm_num, C6_power_spec.2.1 (-1) (by norm_num)⟩,
   ⟨by decide, C6_power_spec.2.2.2.2.1 _ _ (by decide)⟩,
   ⟨by decide, C6_power_spec.2.2.2.2.2.1 _ _ _ (by decide)⟩,
   ⟨by decide, by decide,
     C6_power_spec.2.2.2.2.2.2 _ _ _ (by decide) (by decide)⟩⟩

/-- C7: `ATAN2(0,0) = #DIV/0!` whatever the underlying `np.arctan2` would
return there; every other case returns the primitive applied in swapped
`(y, x)` order, e.g. `ATAN2(0, 1)` is the primitive at `(1, 0)`. -/
theorem C7_atan2_spec :
    (∀ at2 : PyFloat → PyFloat → PyFloat,
      ATAN2leaf at2 (.num (.fin 0)) (.num (.fin 0)) = .err .div0) ∧
    (∀ (at2 : PyFloat → PyFloat → PyFloat) (x y : PyFloat),
      (eqF x y && eqF y (.fin 0)) = false →
      xarctan2 at2 x y = .num (at2 y x)) ∧
    (∀ at2 : PyFloat → PyFloat → PyFloat,
      isNanOrInf (at2 (.fin 1) (.fin 0)) = false →
      ATAN2leaf at2 (.num (.fin 0)) (.num (.fin 1)) =
        .num (at2 (.fin 1) (.fin 0))) := by
  refine ⟨fun _ => rfl, ?_, ?_⟩
  · intro at2 x y h
    simp [xarctan2, h]
  · intro at2 h
    have hx : xarctan2 at2 (.fin 0) (.fin 1) = .num (at2 (.fin 1) (.fin 0)) := by
      have hc : (eqF (.fin 0) (.fin 1) && eqF (.fin 1) (.fin 0)) = false := by
        decide
      simp [xarctan2, hc]
    rw [ATAN2leaf_num, hx]
    simp [h]

/-- C7 witness: the delegation conjuncts at a concrete primitive returning a
finite value. -/
theorem C7_atan2_spec_witness :
    ((eqF (.fin 1) (.fin 0) && eqF (.fin 0) (.fin 0)) = false ∧
      xarctan2 (fun _ _ => .fin 0) (.fin 1) (.fin 0) = .num (.fin 0)) ∧
    (isNanOrInf (.fin 0) = false ∧
      ATAN2leaf (fun _ _ => .fin 0) (.num (.fin 0)) (.num (.fin 1)) =
        .num (.fin 0)) :=
  ⟨⟨by decide, C7_atan2_spec.2.1 _ _ _ (by decide)⟩,
   ⟨rfl, C7_atan2_spec.2.2 _ rfl⟩⟩

/-- C8: `ISERROR(#N/A)` is true, `ISERR(#N/A)` is false, `ISERR` is true on
every other error value, and both predicates are false on a non-error
number. -/
theorem C8_iserr_iserror_spec :
    (iserrorScalar (.err .na) = true) ∧
    (iserrScalar (.err .na) = false) ∧
    (∀ e : XlErr, e ≠ .na → iserrScalar (.err e) = true) ∧
    (∀ x : PyFloat,
      iserrScalar (.num x) = false ∧ iserrorScalar (.num x) = false) := by
  refine ⟨rfl, rfl, ?_, fun _ => ⟨rfl, rfl⟩⟩
  intro e he
  simp [iserrScalar, iserrG, iserrPred, bne, he]

/-- C8 witness: `ISERR` on the distinct error value `#DIV/0!` is true. -/
theorem C8_iserr_iserror_spec_witness :
    XlErr.div0 ≠ XlErr.na ∧ iserrScalar (.err .div0) = true :=
  ⟨by decide, C8_iserr_iserror_spec.2.2.1 .div0 (by decide)⟩

/-- C10: for every value and every `num_chars ≤ 0`, `RIGHT` returns the
string coercion of the value with its first `|num_chars|` characters
removed; in particular `RIGHT(s, 0)` is the whole string. -/
theorem C10_right_spec :
    (∀ (v : CellValue) (n : Int), n ≤ 0 →
      right v n = (pyStr v).drop (-n).toNat) ∧
    (∀ v : CellValue, right v 0 = pyStr v) := by
  constructor
  · intro v n hn
    rw [right, pySliceFrom, if_pos (by omega : (0:ℤ) ≤ 0 - n)]
    congr 1
    omega
  · intro v
    rw [right, pySliceFrom]
    simp

/-- C10 witness: `RIGHT("hello", -2)` drops the first two characters and
`RIGHT("hello", 0)` returns the whole string. -/
theorem C10_right_spec_witness :
    ((-2:ℤ) ≤ 0 ∧
      right (.text "hello".toList) (-2) = "hello".toList.drop 2) ∧
    right (.text "hello".toList) 0 = "hello".toList :=
  ⟨⟨by decide, C10_right_spec.1 _ (-2) (by decide)⟩, C10_right_spec.2 _⟩

/-- C2 counterexample: the equal-shape arrays `[["3"]]` and `[[1]]` contain
no error value, yet `SUM` does not return the sum of the numeric leaves: the
text leaf `"3"` passes the `is_number` filter but Python `sum` cannot add a
string to a float, so the call raises an uncaught `TypeError`. -/
theorem C2_sum_counterexample :
    SUM [gridToCell [[.text "3".toList]], gridToCell [[.num (.fin 1)]]] =
      .error .typeError ∧
    (Except.error PyFault.typeError ≠
      (Except.ok (CellValue.num (.fin 4)) : Except PyFault CellValue)) :=
  ⟨rfl, by decide⟩

/-- C2 amended: for equal-shape arrays containing no error values and no
text leaves, `SUM` returns the sum of the `is_number`-accepted leaves
(booleans counting as 1/0); and whenever the flattened arguments contain an
error value, `SUM`'s output is the first error value discovered, returned as
a value through the wrapper rather than escaping as a fault. -/
theorem C2_sum_amended :
    (∀ A B : Grid,
      A.map List.length = B.map List.length →
      (∀ v ∈ A.flatten ++ B.flatten, errOf v = none ∧ isTextV v = false) →
      SUM [gridToCell A, gridToCell B] =
        .ok (.num (listSumF (((A.flatten ++ B.flatten).filter is_number).map
          (fun v => (toFloat v).getD (.fin 0)))))) ∧
    (∀ (args : List Cell) (e : XlErr),
      raise_errors args = some e → SUM args = .ok (.err e)) := by
  constructor
  · intro A B _ hv
    have hflat : flatten none (cellsOf [gridToCell A, gridToCell B]) =
        A.flatten ++ B.flatten := by
      simp [flatten_none_grid]
    have hmap : ([gridToCell A, gridToCell B].map replaceEmptyArg) =
        [gridToCell A, gridToCell B] := rfl
    have hraise : raise_errors [gridToCell A, gridToCell B] = none := by
      rw [raise_errors, hflat]
      exact List.findSome?_eq_none_iff.mpr (fun v hvm => (hv v hvm).1)
    have hnb : ∀ v ∈ flatten (some is_number)
        (cellsOf [gridToCell A, gridToCell B]), isNumOrBool v = true := by
      rw [flatten_some_eq_filter]
      refine mem_filter_isNumOrBool _ ?_
      intro s hs
      exact absurd ((hv _ (hflat ▸ hs)).2) (by simp [isTextV])
    show wrapAggregate xsum [gridToCell A, gridToCell B] = _
    refine wrapAggregate_ok _ _ _ ?_
    rw [hmap, xsum_no_errors _ hraise, pySum_ok _ hnb,
      flatten_some_eq_filter, hflat]
  · intro args e h
    show wrapAggregate xsum args = _
    refine wrapAggregate_found _ _ _ ?_
    exact xsum_found _ _ (by rw [raise_errors_map_replace]; exact h)

/-- C2 witness: a pair of equal-shape numeric arrays sums to the claimed
value, and an argument list containing `#N/A` makes `SUM` return `#N/A`. -/
theorem C2_sum_amended_witness :
    (([[CellValue.num (.fin 1), CellValue.num (.fin 2)]] : Grid).map
        List.length =
      ([[CellValue.num (.fin 3), CellValue.boolean true]] : Grid).map
        List.length) ∧
    SUM [gridToCell [[.num (.fin 1), .num (.fin 2)]],
        gridToCell [[.num (.fin 3), .boolean true]]] =
      .ok (.num (listSumF
        (((([[CellValue.num (.fin 1), CellValue.num (.fin 2)]] : Grid).flatten
            ++ ([[CellValue.num (.fin 3), CellValue.boolean true]] :
              Grid).flatten).filter is_number).map
          (fun v => (toFloat v).getD (.fin 0))))) ∧
    (raise_errors [.leaf (.err .na), .leaf (.num (.fin 1))] = some .na ∧
      SUM [.leaf (.err .na), .leaf (.num (.fin 1))] = .ok (.err .na)) :=
  ⟨by decide,
   C2_sum_amended.1 [[.num (.fin 1), .num (.fin 2)]]
     [[.num (.fin 3), .boolean true]] (by decide) (by decide),
   by decide, C2_sum_amended.2 _ .na (by decide)⟩

/-- C5 counterexample: with a size-1 argument containing `#DIV/0!` and a
size-2 argument, the element counts differ but `SUMPRODUCT` does not fail
with `ShapeMismatch`: `raise_errors` runs first, so the embedded error value
is returned as the output instead. -/
theorem C5_sumproduct_counterexample :
    SUMPRODUCT [[[.err .div0]], [[.num (.fin 3), .num (.fin 4)]]] =
      .ok (.err .div0) ∧
    ((Except.ok (CellValue.err XlErr.div0) : Except PyFault CellValue) ≠
      .error .shapeMismatch) :=
  ⟨rfl, by decide⟩

/-- C5 amended: among error-free arguments, differing total element counts
fail with `ShapeMismatch` (an embedded error value is detected first and
returned instead); with matching counts and no errors, the result is the sum
over positions of the product of the per-argument leaves with every
non-`is_number` leaf replaced by zero. -/
theorem C5_sumproduct_amended :
    (∀ (args : List Grid) (a b : Grid),
      (∀ g ∈ args, ∀ v ∈ ravelG g, errOf v = none) →
      a ∈ args → b ∈ args → sizeG a ≠ sizeG b →
      SUMPRODUCT args = .error .shapeMismatch) ∧
    (∀ args : List Grid,
      (∀ g ∈ args, ∀ v ∈ ravelG g, errOf v = none) →
      args ≠ [] →
      (∀ g ∈ args, sizeG g = sizeG (args.headD [])) →
      SUMPRODUCT args = .ok (.num (listSumF
        ((List.range (sizeG (args.headD []))).map (fun i =>
          listProdF (args.map (fun g =>
            maskLeaf ((ravelG g).getD i .empty)))))))) := by
  constructor
  · intro args a b herr ha hb hne
    have hr := raise_errors_grids_none args herr
    have hd : ¬ ((args.map sizeG).dedup.length = 1) := fun h1 =>
      hne (eq_of_dedup_len1 (List.mem_map_of_mem _ ha)
        (List.mem_map_of_mem _ hb) h1)
    exact SUMPRODUCT_shape _ (xsumproduct_mismatch _ hr hd)
  · intro args herr hne hsz
    have hr := raise_errors_grids_none args herr
    have hd : (args.map sizeG).dedup.length = 1 := by
      rw [dedup_all_eq (c := sizeG (args.headD []))
        (fun h => hne (List.map_eq_nil_iff.mp h))
        (fun x hx => by
          obtain ⟨g, hg, rfl⟩ := List.mem_map.mp hx
          exact hsz g hg)]
      rfl
    rw [SUMPRODUCT_num _ _ (xsumproduct_ok args hr hd)]
    refine congrArg Except.ok (congrArg CellValue.num (congrArg listSumF ?_))
    refine List.map_congr_left ?_
    intro i _
    refine congrArg listProdF ?_
    rw [List.map_map]
    refine List.map_congr_left ?_
    intro g _
    exact getD_map_maskLeaf (ravelG g) i

/-- C5 witness: a size mismatch on error-free arguments fails with
`ShapeMismatch`, and matching sizes produce the masked sum of products (the
non-numeric leaf `"x"` contributing zero). -/
theorem C5_sumproduct_amended_witness :
    (sizeG ([[CellValue.num (.fin 1)]] : Grid) ≠
        sizeG ([[CellValue.num (.fin 3), CellValue.num (.fin 4)]] : Grid) ∧
      SUMPRODUCT [[[.num (.fin 1)]], [[.num (.fin 3), .num (.fin 4)]]] =
        .error .shapeMismatch) ∧
    SUMPRODUCT [[[.num (.fin 1), .text "x".toList]],
        [[.num (.fin 3), .num (.fin 4)]]] =
      .ok (.num (listSumF
        ((List.range (sizeG (([[[CellValue.num (.fin 1),
            CellValue.text "x".toList]], [[CellValue.num (.fin 3),
            CellValue.num (.fin 4)]]] : List Grid).headD []))).map (fun i =>
          listProdF (([[[CellValue.num (.fin 1), CellValue.text "x".toList]],
              [[CellValue.num (.fin 3), CellValue.num (.fin 4)]]] :
              List Grid).map (fun g =>
            maskLeaf ((ravelG g).getD i .empty))))))) :=
  ⟨⟨by decide,
    C5_sumproduct_amended.1 _ [[.num (.fin 1)]]
      [[.num (.fin 3), .num (.fin 4)]] (by decide) (by decide) (by decide)
      (by decide)⟩,
   C5_sumproduct_amended.2 _ (by decide) (by decide) (by decide)⟩

/-- C9 counterexample: the single argument `"3"` contains no error value and
is float-coercible, yet `AVERAGE` does not return `3`: the text leaf passes
the `is_number` filter and Python `sum` raises an uncaught `TypeError` on
it. -/
theorem C9_average_counterexample :
    AVERAGE [.leaf (.text "3".toList)] = .error .typeError ∧
    (Except.error PyFault.typeError ≠
      (Except.ok (CellValue.num (.fin 3)) : Except PyFault CellValue)) :=
  ⟨rfl, by decide⟩

/-- C9 amended: for calls whose arguments are none of them a bare empty cell,
whose flattened leaves include no float-coercible text, and with at least one
`is_number` leaf, `AVERAGE` returns the sum of the `is_number`-accepted
leaves divided by their count — error values and non-numeric text are
silently excluded from numerator and denominator alike, with no fail-fast
error check before the reduction. -/
theorem C9_average_amended (args : List Cell)
    (hE : ∀ a ∈ args, isEmptyLeaf a = false)
    (hT : ∀ s, CellValue.text s ∈ flatten none (cellsOf args) →
      is_number (.text s) = false)
    (hpos : 0 < ((flatten none (cellsOf args)).filter is_number).length) :
    AVERAGE args = .ok (.num (divByNat
      (listSumF (((flatten none (cellsOf args)).filter is_number).map
        (fun v => (toFloat v).getD (.fin 0))))
      ((flatten none (cellsOf args)).filter is_number).length)) := by
  have hmap := map_replaceEmptyArg_id args hE
  have hnb : ∀ v ∈ flatten (some is_number) (cellsOf args),
      isNumOrBool v = true := by
    rw [flatten_some_eq_filter]
    exact mem_filter_isNumOrBool _ hT
  have hne : flatten (some is_number) (cellsOf args) ≠ [] := by
    rw [flatten_some_eq_filter]
    exact List.length_pos.mp hpos
  show wrapAggregate average args = _
  refine wrapAggregate_ok _ _ _ ?_
  rw [hmap, average_ok args hnb hne, flatten_some_eq_filter]

/-- C9 witness: an argument list holding an error value, a number and
non-numeric text averages to the sum of its single accepted leaf over count
one — the error is excluded, not raised. -/
theorem C9_average_amended_witness :
    (∀ a ∈ [Cell.leaf (.err .div0), Cell.leaf (.num (.fin 4)),
        Cell.leaf (.text "x".toList)], isEmptyLeaf a = false) ∧
    AVERAGE [.leaf (.err .div0), .leaf (.num (.fin 4)),
        .leaf (.text "x".toList)] =
      .ok (.num (divByNat
        (listSumF (((flatten none (cellsOf [Cell.leaf (.err .div0),
            Cell.leaf (.num (.fin 4)), Cell.leaf (.text "x".toList)])).filter
            is_number).map (fun v => (toFloat v).getD (.fin 0))))
        ((flatten none (cellsOf [Cell.leaf (.err .div0),
            Cell.leaf (.num (.fin 4)),
            Cell.leaf (.text "x".toList)])).filter is_number).length)) :=
  ⟨by decide,
   C9_average_amended _ (by decide)
     (by
       intro s hs
       have hl : flatten none (cellsOf [Cell.leaf (.err .div0),
           Cell.leaf (.num (.fin 4)), Cell.leaf (.text "x".toList)]) =
           [.err .div0, .num (.fin 4), .text "x".toList] := rfl
       rw [hl] at hs
       simp only [List.mem_cons, List.not_mem_nil, or_false] at hs
       rcases hs with h | h | h
       · nomatch h
       · nomatch h
       · injection h with h2
         rw [h2]
         decide)
     (by decide)⟩

end Formulas
